import Mathlib

/-!
Formal model of the Pernosco on-prem smoke-test orchestrator
(`tests/main.py`).  The script is a strictly sequential pipeline that
builds a sample project, records an `rr` trace, starts the debugging
server, drives a browser against it, restarts the server to check that
notebook text persists, checks container cleanup and a copy-sources
export, and finally prints a `PASS` marker on stderr.

The shallow embedding below translates the functions of the script into
pure Lean functions.  External effects (subprocess exit statuses, the
server's stdout lines, browser-driver outcomes, the values observed by
in-page script polls, the docker listing, the zip listing) are supplied
by an oracle structure `World`; the pipeline consumes the oracle exactly
in the order the script consumes the corresponding external events, and
produces the diagnostic/event trace (`List Ev`) together with either
normal completion or the Python exception that aborted the run.
-/

/-- A JavaScript evaluation error (selenium's `JavascriptException`). -/
inductive JsError where
  | js
deriving DecidableEq, Repr

/-- The Python exceptions the script can die with, by kind:
`check_call`/`check_output` failure (`CalledProcessError`), the
`line.split()[-1]` failure on an empty token list (`IndexError`),
the script's own `CustomException`, a `WebDriverWait` timeout
(`TimeoutException`), other webdriver/browser failures, `os.mkdir`
failure (`OSError`), and `assert False` (`AssertionError`). -/
inductive PyErr where
  | calledProcessError
  | indexError
  | customError
  | timeoutError
  | webDriverError
  | osError
  | assertionError
deriving DecidableEq, Repr

deriving instance DecidableEq for Except

/-- `CustomException` from `tests/main.py` line 28. -/
structure CustomException where
  msg : String
deriving DecidableEq, Repr

/-- Observable events of a run: a line printed to stderr, a line printed
to stdout, the spawn of a server process (`subprocess.Popen` of
`pernosco ... serve`, line 129), and the interrupt-and-wait shutdown of
the most recently started server (`os.kill(server.pid, SIGINT)`
immediately followed by `server.wait()`, lines 225-226 and 235-236). -/
inductive Ev where
  | eprint (s : String)
  | oprint (s : String)
  | serverStart
  | serverStop
deriving DecidableEq, Repr

/-- Characters Python's no-argument `str.split()` treats as whitespace. -/
def isPySpace (c : Char) : Bool :=
  c == ' ' || c == '\t' || c == '\n' || c == '\r' || c == '\x0b' || c == '\x0c'

/-- Worker for `pySplit`: walks the characters with an accumulator of
the (reversed) current word, emitting a word at each whitespace run
boundary and at the end. -/
def pyWordsAux (acc : List Char) : List Char → List String
  | [] => if acc.isEmpty then [] else [String.mk acc.reverse]
  | c :: cs =>
    if isPySpace c then
      if acc.isEmpty then pyWordsAux [] cs
      else String.mk acc.reverse :: pyWordsAux [] cs
    else pyWordsAux (c :: acc) cs

/-- Python's `line.split()`: split on runs of whitespace, dropping empty
pieces. -/
def pySplit (s : String) : List String :=
  pyWordsAux [] s.data

/-- Worker for `pyStarts` on character lists. -/
def charsStart : List Char → List Char → Bool
  | [], _ => true
  | _ :: _, [] => false
  | p :: ps, c :: cs => p == c && charsStart ps cs

/-- Python's `s.startswith(pre)`. -/
def pyStarts (s pre : String) : Bool :=
  charsStart pre.data s.data

/-- Python's `s.strip()`: drop leading and trailing whitespace. -/
def pyStrip (s : String) : String :=
  String.mk (((s.data.dropWhile isPySpace).reverse.dropWhile isPySpace).reverse)

/-- The `script_succeeds` expectation class (lines 106-117): stores the
script source and the expected value. -/
structure script_succeeds (α : Type) where
  script : String
  expected : α

/-- The `__call__` method of `script_succeeds` (lines 113-117): runs the
script; a `JavascriptException` is caught and reported as `false`
(condition not yet true), otherwise the result is compared with the
expected value.  The oracle `result` stands for
`driver.execute_script(self.script)`. -/
def script_succeeds.call {α : Type} [BEq α] (s : script_succeeds α)
    (result : Except JsError α) : Bool :=
  match result with
  | Except.ok v => v == s.expected
  | Except.error _ => false

/-- A `WebDriverWait(driver, TIMEOUT).until(expectation)` against a
`script_succeeds` expectation: the oracle supplies the sequence of
script results observed while polling within the timeout window; the
wait succeeds iff some poll satisfies the expectation (otherwise the
wait raises `TimeoutException`, handled at the call site). -/
def waitUntilScript {α : Type} [BEq α] (s : script_succeeds α)
    (polls : List (Except JsError α)) : Bool :=
  polls.any s.call

/-- The retry loop of `open_browser` (lines 82-96), one call per
navigation attempt.  The Python loop increments `retries` before each
check, bails out with `CustomException` once `retries > 100`, attempts
`driver.get(url)`, swallows `WebDriverException` with a short sleep and
continues, and breaks on success.  Here `att r` tells whether attempt
number `r` succeeds (`false` = `WebDriverException`); `r` is the value
of `retries` at that attempt and `remaining = 101 - r` counts the
attempts still allowed, so the recursion is structural.  The returned
list records the attempt numbers actually performed, in order. -/
def openBrowserAux (att : Nat → Bool) (r : Nat) :
    Nat → Except CustomException Unit × List Nat
  | 0 => (Except.error { msg := "Too many retries" }, [])
  | remaining + 1 =>
    if att r then (Except.ok (), [r])
    else
      let rest := openBrowserAux att (r + 1) remaining
      (rest.fst, r :: rest.snd)

/-- `open_browser` (lines 82-96): attempts are numbered 1, 2, ... and at
most 100 are performed; if all of them raise `WebDriverException` the
function raises `CustomException("Too many retries")`. -/
def open_browser (att : Nat → Bool) : Except CustomException Unit × List Nat :=
  openBrowserAux att 1 100

/-- The stdout scan of `start_server` (lines 132-138): iterate over the
server's stdout lines; echo each line (`print(line)`, stdout); compute
`line.split()[-1]`, which raises `IndexError` when the line splits to no
tokens; stop with the token as URL once it starts with `"http:"`.  If
the stream closes first, the loop simply ends and `url` remains `None`.
Returns the echoed-line events together with either the raised
exception or the final value of `url`. -/
def scanUrl : List String → List Ev × Except PyErr (Option String)
  | [] => ([], Except.ok none)
  | line :: rest =>
    match (pySplit line).getLast? with
    | none => ([Ev.oprint line], Except.error PyErr.indexError)
    | some tok =>
      if pyStarts tok "http:" then ([Ev.oprint line], Except.ok (some tok))
      else
        let r := scanUrl rest
        (Ev.oprint line :: r.fst, r.snd)

/-- The two module-level globals mutated by `record` (lines 50-51):
`trace_dir` (initially `None`) and `next_trace_id` (initially `0`). -/
structure RecState where
  trace_dir : Option String
  next_trace_id : Nat
deriving DecidableEq, Repr

/-- `record` (lines 58-63): run `rr record`; `check_call` raises
`CalledProcessError` on a non-zero exit, in which case neither global is
touched; on success set `trace_dir` to `"%s/main-%d" % (tmpdir,
next_trace_id)` and then increment `next_trace_id`. -/
def record (tmpdir : String) (rrExit : Nat) (s : RecState) :
    Except PyErr Unit × RecState :=
  if rrExit != 0 then (Except.error PyErr.calledProcessError, s)
  else (Except.ok (),
    { trace_dir := some (tmpdir ++ "/main-" ++ toString s.next_trace_id),
      next_trace_id := s.next_trace_id + 1 })

/-- Python's `print(x)` rendering of the `url` global, which is `None`
until the scan assigns it. -/
def optStr : Option String → String
  | none => "None"
  | some s => s

/-- The in-page script polled at lines 207 (`classList.contains`) and
the textarea-value script polled at lines 211, 218 and 231 (apostrophes
written as unicode escapes). -/
def focusScript : String :=
  "return document.querySelector('#main > .notebook > .contents > div').classList.contains('focus');"

/-- The textarea-value script of lines 211, 218 and 231. -/
def textareaScript : String :=
  "return document.querySelector('#main > .notebook > .contents > div > div:nth-child(2) > textarea').value;"

/-- Oracle for every external interaction of the module-level pipeline,
in program order.  `Ok` flags tell whether the corresponding external
call succeeds (a `false` models the exception that call would raise);
the `Polls` lists supply the script values observed by the
`script_succeeds` waits; the stdout/zip/docker fields supply the texts
the script reads back. -/
structure World where
  /-- `tmpdir` (lines 41-44). -/
  tmpdir : String
  /-- `args.no_pull` (line 36). -/
  noPull : Bool
  /-- `git clone` (line 141). -/
  cloneOk : Bool
  /-- `git checkout` (line 142). -/
  checkoutOk : Bool
  /-- `mkdir -p` of the alias dir (line 143). -/
  mkdirAliasOk : Bool
  /-- `sudo mount --bind` (line 145). -/
  mountOk : Bool
  /-- `./build.sh` via `build()` (line 56, called at 146). -/
  buildOk : Bool
  /-- exit status of `rr record` (line 61, called at 147). -/
  rrExit : Nat
  /-- `./pernosco pull` (line 150). -/
  pullOk : Bool
  /-- `pernosco build --check-trace` (line 152). -/
  checkTraceOk : Bool
  /-- `os.mkdir(storage_dir)` (line 154). -/
  mkdirStorageOk : Bool
  /-- stdout lines of the first server (line 133). -/
  server1Stdout : List String
  /-- `create_driver()` (lines 68-80, called at 159). -/
  createDriverOk : Bool
  /-- outcome of navigation attempt `r` of the first `open_browser`
  (line 160). -/
  nav1 : Nat → Bool
  /-- source-view scenario: waits/finds/frame switches of lines
  162-171. -/
  sourceViewOk : Bool
  /-- symbol-search scenario: lines 173-195. -/
  searchSymbolOk : Bool
  /-- notebook search and `first_note` lookup: lines 198-205. -/
  notebookSearchOk : Bool
  /-- polls of the focus-class wait (lines 206-208). -/
  focusPolls : List (Except JsError Bool)
  /-- `first_note.click()` (line 209). -/
  clickNoteOk : Bool
  /-- polls of the empty-textarea wait (lines 210-212). -/
  emptyPolls : List (Except JsError String)
  /-- the `ActionChains` keystrokes typing `HelloKitty` (lines
  214-216). -/
  typeOk : Bool
  /-- polls of the typed-value wait before the restart (lines
  217-219). -/
  typedPolls : List (Except JsError String)
  /-- `driver.get("about:blank")` (line 223). -/
  aboutBlankOk : Bool
  /-- stdout lines of the second server (line 228). -/
  server2Stdout : List String
  /-- outcome of navigation attempt `r` of the second `open_browser`
  (line 229). -/
  nav2 : Nat → Bool
  /-- polls of the persisted-value wait after the restart (lines
  230-232). -/
  persistPolls : List (Except JsError String)
  /-- `driver.quit()` (line 234). -/
  quitOk : Bool
  /-- `docker ps -aq` succeeds (line 239). -/
  dockerOk : Bool
  /-- stdout text of `docker ps -aq` (line 239). -/
  dockerOut : String
  /-- `pernosco build --copy-sources /` (line 244). -/
  copySourcesOk : Bool
  /-- `unzip -Z1` on the sources archive (line 246). -/
  unzipOk : Bool
  /-- the lines of the archive listing (line 246). -/
  zipFiles : List String
  /-- `sudo umount` (line 249). -/
  umountOk : Bool

/-- Final phase of the pipeline (lines 238-251): `docker ps -aq` with
the leaked-container assertion, `pernosco build --copy-sources /`,
`unzip -Z1` of `<trace>/files.user/sources.zip`, the
`assert "%s/pernosco-submit-test/out/message.h" % tmpdir in zip_files`
check of line 247, the `sudo umount`, and finally
`print("\nPASS", file=sys.stderr)`.  `tr` is the event trace
accumulated by the earlier phases. -/
def stageExport (w : World) (tr : List Ev) : Except PyErr Unit × List Ev :=
  if w.dockerOk then
    if (pyStrip w.dockerOut).length > 0 then
      (Except.error PyErr.assertionError,
        tr ++ [Ev.eprint ("Docker containers still running:\n" ++ pyStrip w.dockerOut)])
    else
      if w.copySourcesOk then
        if w.unzipOk then
          if w.zipFiles.contains (w.tmpdir ++ "/pernosco-submit-test/out/message.h") then
            if w.umountOk then (Except.ok (), tr ++ [Ev.eprint "\nPASS"])
            else (Except.error PyErr.calledProcessError, tr)
          else (Except.error PyErr.assertionError, tr)
        else (Except.error PyErr.calledProcessError, tr)
      else (Except.error PyErr.calledProcessError, tr)
  else (Except.error PyErr.calledProcessError, tr)

/-- Restart phase (lines 225-236): interrupt-and-wait on the first
server, `start_server()` again (spawn + stdout scan), `open_browser`
at the rediscovered URL, the persisted-notebook wait of lines 230-232
with expected value `"HelloKitty"`, `driver.quit()`, and the second
interrupt-and-wait. -/
def stageRestart (w : World) (tr : List Ev) : Except PyErr Unit × List Ev :=
  match (scanUrl w.server2Stdout).snd with
  | Except.error e =>
    (Except.error e, tr ++ [Ev.serverStop, Ev.serverStart] ++ (scanUrl w.server2Stdout).fst)
  | Except.ok url2 =>
    match (open_browser w.nav2).fst with
    | Except.error _ =>
      (Except.error PyErr.customError,
        tr ++ [Ev.serverStop, Ev.serverStart] ++ (scanUrl w.server2Stdout).fst
           ++ [Ev.eprint ("Too many retries loading " ++ optStr url2 ++ ", bailing out")])
    | Except.ok _ =>
      if waitUntilScript { script := textareaScript, expected := "HelloKitty" } w.persistPolls then
        if w.quitOk then
          stageExport w
            (tr ++ [Ev.serverStop, Ev.serverStart] ++ (scanUrl w.server2Stdout).fst ++ [Ev.serverStop])
        else
          (Except.error PyErr.webDriverError,
            tr ++ [Ev.serverStop, Ev.serverStart] ++ (scanUrl w.server2Stdout).fst)
      else
        (Except.error PyErr.timeoutError,
          tr ++ [Ev.serverStop, Ev.serverStart] ++ (scanUrl w.server2Stdout).fst)

/-- Browser scenario phase (lines 162-223): the source-view waits and
frame switches (162-171), the `helper_function` search scenario
(173-195), the notebook search and `first_note` lookup (198-205), the
focus-class wait, the click, the empty-textarea wait, the `HelloKitty`
keystrokes, the typed-value wait, and `driver.get("about:blank")`.
A `WebDriverWait` that never observes its condition raises
`TimeoutException`; element lookups, clicks and keystroke dispatch can
raise webdriver errors; any of these aborts the run. -/
def stageScenario (w : World) (tr : List Ev) : Except PyErr Unit × List Ev :=
  if w.sourceViewOk then
    if w.searchSymbolOk then
      if w.notebookSearchOk then
        if waitUntilScript { script := focusScript, expected := true } w.focusPolls then
          if w.clickNoteOk then
            if waitUntilScript { script := textareaScript, expected := "" } w.emptyPolls then
              if w.typeOk then
                if waitUntilScript { script := textareaScript, expected := "HelloKitty" } w.typedPolls then
                  if w.aboutBlankOk then stageRestart w tr
                  else (Except.error PyErr.webDriverError, tr)
                else (Except.error PyErr.timeoutError, tr)
              else (Except.error PyErr.webDriverError, tr)
            else (Except.error PyErr.timeoutError, tr)
          else (Except.error PyErr.webDriverError, tr)
        else (Except.error PyErr.timeoutError, tr)
      else (Except.error PyErr.timeoutError, tr)
    else (Except.error PyErr.timeoutError, tr)
  else (Except.error PyErr.timeoutError, tr)

/-- First-serve phase (lines 156-161): `print("Starting server")`,
`start_server()` (spawn + stdout scan, possibly dying of `IndexError`),
`print("Opening browser at ", url, " to run tests")`,
`create_driver()`, `open_browser(url)` (printing the bail-out line on
retry exhaustion), and `print("Browser open, running tests")`. -/
def stageServe1 (w : World) (tr : List Ev) : Except PyErr Unit × List Ev :=
  match (scanUrl w.server1Stdout).snd with
  | Except.error e =>
    (Except.error e, tr ++ [Ev.oprint "Starting server", Ev.serverStart] ++ (scanUrl w.server1Stdout).fst)
  | Except.ok url1 =>
    if w.createDriverOk then
      match (open_browser w.nav1).fst with
      | Except.error _ =>
        (Except.error PyErr.customError,
          tr ++ [Ev.oprint "Starting server", Ev.serverStart] ++ (scanUrl w.server1Stdout).fst
             ++ [Ev.oprint ("Opening browser at  " ++ optStr url1 ++ "  to run tests"),
                 Ev.eprint ("Too many retries loading " ++ optStr url1 ++ ", bailing out")])
      | Except.ok _ =>
        stageScenario w
          (tr ++ [Ev.oprint "Starting server", Ev.serverStart] ++ (scanUrl w.server1Stdout).fst
              ++ [Ev.oprint ("Opening browser at  " ++ optStr url1 ++ "  to run tests"),
                  Ev.oprint "Browser open, running tests"])
    else
      (Except.error PyErr.webDriverError,
        tr ++ [Ev.oprint "Starting server", Ev.serverStart] ++ (scanUrl w.server1Stdout).fst
           ++ [Ev.oprint ("Opening browser at  " ++ optStr url1 ++ "  to run tests")])

/-- Build-and-record phase (lines 145-154): `sudo mount --bind`,
`./build.sh`, `record()` (through the `record` function above, with the
module-initial globals of lines 50-51), the optional `./pernosco pull`,
`pernosco build --check-trace`, and `os.mkdir(storage_dir)`. -/
def stageBuildRecord (w : World) (tr : List Ev) : Except PyErr Unit × List Ev :=
  if w.mountOk then
    if w.buildOk then
      match (record w.tmpdir w.rrExit { trace_dir := none, next_trace_id := 0 }).fst with
      | Except.error e => (Except.error e, tr)
      | Except.ok _ =>
        if w.noPull || w.pullOk then
          if w.checkTraceOk then
            if w.mkdirStorageOk then
              stageServe1 w tr
            else (Except.error PyErr.osError, tr)
          else (Except.error PyErr.calledProcessError, tr)
        else (Except.error PyErr.calledProcessError, tr)
    else (Except.error PyErr.calledProcessError, tr)
  else (Except.error PyErr.calledProcessError, tr)

/-- The module-level pipeline of `tests/main.py` (lines 140-251): the
`Working directory` banner (line 49), `git clone`, `git checkout`,
`mkdir -p` of the alias directory, the `Mounting filesystem into test`
print (line 144), and then the phases above in order.  The result is
the run's event trace together with either normal completion or the
exception that aborted the run (any uncaught exception terminates the
script). -/
def runPipeline (w : World) : Except PyErr Unit × List Ev :=
  if w.cloneOk then
    if w.checkoutOk then
      if w.mkdirAliasOk then
        stageBuildRecord w
          [Ev.eprint ("Working directory: " ++ w.tmpdir), Ev.oprint "Mounting filesystem into test"]
      else (Except.error PyErr.calledProcessError, [Ev.eprint ("Working directory: " ++ w.tmpdir)])
    else (Except.error PyErr.calledProcessError, [Ev.eprint ("Working directory: " ++ w.tmpdir)])
  else (Except.error PyErr.calledProcessError, [Ev.eprint ("Working directory: " ++ w.tmpdir)])

/-- A fully successful oracle: every external call succeeds, each
server announces a `http:` URL, the notebook polls observe the typed
text, docker reports no containers and the archive listing holds the
path asserted at line 247. -/
def wAllOk : World where
  tmpdir := "/tmp/w"
  noPull := false
  cloneOk := true
  checkoutOk := true
  mkdirAliasOk := true
  mountOk := true
  buildOk := true
  rrExit := 0
  pullOk := true
  checkTraceOk := true
  mkdirStorageOk := true
  server1Stdout := ["Serving at http://localhost:4000/a"]
  createDriverOk := true
  nav1 := fun _ => true
  sourceViewOk := true
  searchSymbolOk := true
  notebookSearchOk := true
  focusPolls := [Except.ok true]
  clickNoteOk := true
  emptyPolls := [Except.ok ""]
  typeOk := true
  typedPolls := [Except.error JsError.js, Except.ok "HelloKitty"]
  aboutBlankOk := true
  server2Stdout := ["Serving at http://localhost:4001/b"]
  nav2 := fun _ => true
  persistPolls := [Except.ok "HelloKitty"]
  quitOk := true
  dockerOk := true
  dockerOut := ""
  copySourcesOk := true
  unzipOk := true
  zipFiles := ["/tmp/w/pernosco-submit-test/out/message.h"]
  umountOk := true

/-- A successful oracle whose archive listing contains exactly the path
the script asserts at line 247 (`<tmpdir>/pernosco-submit-test/out/message.h`)
and in particular does not contain the alias-rooted path
`<tmpdir>/alias/pernosco-submit-test/out/message.h`. -/
def wExport : World :=
  { wAllOk with
    tmpdir := "/tmp/t"
    zipFiles := ["/tmp/t/pernosco-submit-test/out/message.h"] }

/-- An oracle identical to `wAllOk` except that the first UI wait after
the server start (the `.view.source > .viewTitle` wait of lines
162-164) times out, so the run aborts after the first server was
started but before any interrupt-and-wait shutdown. -/
def wAbort : World :=
  { wAllOk with sourceViewOk := false }

/-- Whether an event is the terminal success marker
`print("\nPASS", file=sys.stderr)` (line 251). -/
def isPass : Ev → Bool
  | Ev.eprint s => s == "\nPASS"
  | _ => false

/-- Number of PASS markers in a trace. -/
def passCount (tr : List Ev) : Nat := tr.countP isPass

/-- Whether an event is a server lifecycle event. -/
def isServerEv : Ev → Bool
  | Ev.serverStart => true
  | Ev.serverStop => true
  | _ => false

/-- The subsequence of server lifecycle events of a trace. -/
def serverEvs (tr : List Ev) : List Ev := tr.filter isServerEv

/-- The event trace of a successful run, up to but excluding the final
PASS marker; `url1` is the URL discovered from the first server's
stdout (the second URL is rediscovered but never printed on the success
path). -/
def successPrefix (w : World) (url1 : Option String) : List Ev :=
  [Ev.eprint ("Working directory: " ++ w.tmpdir), Ev.oprint "Mounting filesystem into test",
   Ev.oprint "Starting server", Ev.serverStart]
  ++ (scanUrl w.server1Stdout).fst
  ++ [Ev.oprint ("Opening browser at  " ++ optStr url1 ++ "  to run tests"),
      Ev.oprint "Browser open, running tests", Ev.serverStop, Ev.serverStart]
  ++ (scanUrl w.server2Stdout).fst
  ++ [Ev.serverStop]

/-- The full event trace of a successful run. -/
def successTrace (w : World) (url1 : Option String) : List Ev :=
  successPrefix w url1 ++ [Ev.eprint "\nPASS"]

/-! ## General lemmas about traces, the stdout scan, the poll predicate
and the navigation retry loop -/

/-- A stderr line with a prefix of length at least 6 is never the PASS
marker (whose length is 5). -/
theorem eprint_ne_pass (s t : String) (h : 6 <= s.length) :
    isPass (Ev.eprint (s ++ t)) = false := by
  unfold isPass
  rw [beq_eq_false_iff_ne]
  intro he
  have hl := congrArg String.length he
  rw [String.length_append] at hl
  have h5 : ("\nPASS" : String).length = 5 := rfl
  omega

@[simp] theorem isPass_oprint (s : String) : isPass (Ev.oprint s) = false := rfl

@[simp] theorem isPass_start : isPass Ev.serverStart = false := rfl

@[simp] theorem isPass_stop : isPass Ev.serverStop = false := rfl

@[simp] theorem isPass_pass : isPass (Ev.eprint "\nPASS") = true := by
  simp [isPass]

@[simp] theorem isPass_workdir (t : String) :
    isPass (Ev.eprint ("Working directory: " ++ t)) = false :=
  eprint_ne_pass _ _ (by have : ("Working directory: " : String).length = 19 := rfl; omega)

@[simp] theorem isPass_tooMany (u : String) :
    isPass (Ev.eprint ("Too many retries loading " ++ u ++ ", bailing out")) = false :=
  eprint_ne_pass _ _ (by
    rw [String.length_append]
    have : ("Too many retries loading " : String).length = 25 := rfl
    omega)

@[simp] theorem isPass_docker (t : String) :
    isPass (Ev.eprint ("Docker containers still running:\n" ++ t)) = false :=
  eprint_ne_pass _ _ (by have : ("Docker containers still running:\n" : String).length = 33 := rfl; omega)

/-- Every event emitted by the stdout scan is an echoed stdout line. -/
theorem scanUrl_fst_oprint (lines : List String) :
    ∀ e ∈ (scanUrl lines).fst, ∃ s, e = Ev.oprint s := by
  induction lines with
  | nil => simp [scanUrl]
  | cons l rest ih =>
    simp only [scanUrl]
    cases hl : (pySplit l).getLast? with
    | none => simp
    | some tok =>
      by_cases hs : pyStarts tok "http:"
      · simp [hs]
      · simp only [hs, if_false, Bool.false_eq_true]
        intro e he
        rcases List.mem_cons.mp he with h | h
        · exact ⟨l, h⟩
        · exact ih e h

@[simp] theorem isServerEv_oprint (s : String) : isServerEv (Ev.oprint s) = false := rfl

@[simp] theorem isServerEv_eprint (s : String) : isServerEv (Ev.eprint s) = false := rfl

@[simp] theorem isServerEv_start : isServerEv Ev.serverStart = true := rfl

@[simp] theorem isServerEv_stop : isServerEv Ev.serverStop = true := rfl

@[simp] theorem scanUrl_countP_isPass (lines : List String) :
    (scanUrl lines).fst.countP isPass = 0 :=
  List.countP_eq_zero.mpr (fun e he => by
    obtain ⟨s, rfl⟩ := scanUrl_fst_oprint lines e he
    simp)

@[simp] theorem scanUrl_filter_server (lines : List String) :
    (scanUrl lines).fst.filter isServerEv = [] :=
  List.filter_eq_nil_iff.mpr (fun e he => by
    obtain ⟨s, rfl⟩ := scanUrl_fst_oprint lines e he
    simp [isServerEv])

@[simp] theorem passCount_append (a b : List Ev) :
    passCount (a ++ b) = passCount a + passCount b := by
  simp [passCount]

@[simp] theorem passCount_nil : passCount [] = 0 := rfl

@[simp] theorem passCount_cons (e : Ev) (l : List Ev) :
    passCount (e :: l) = passCount l + (if isPass e then 1 else 0) := by
  simp [passCount, List.countP_cons]

@[simp] theorem passCount_scanUrl (lines : List String) :
    passCount (scanUrl lines).fst = 0 :=
  scanUrl_countP_isPass lines

/-- A successful `script_succeeds` wait over string values means some
poll observed exactly the expected string. -/
theorem waitUntil_string_mem {sc e : String} {polls : List (Except JsError String)}
    (h : waitUntilScript { script := sc, expected := e } polls = true) :
    ∃ v, Except.ok v ∈ polls ∧ v = e := by
  unfold waitUntilScript at h
  rw [List.any_eq_true] at h
  obtain ⟨x, hx, hc⟩ := h
  cases x with
  | ok v => exact ⟨v, hx, by simpa [script_succeeds.call] using hc⟩
  | error je => simp [script_succeeds.call] at hc

/-- The scan walks past any prefix of lines that tokenize but whose
last token does not start with the URL scheme, echoing them. -/
theorem scanUrl_skip (pre rest : List String)
    (hpre : ∀ p ∈ pre, ∃ t, (pySplit p).getLast? = some t ∧ pyStarts t "http:" = false) :
    scanUrl (pre ++ rest) =
      (pre.map Ev.oprint ++ (scanUrl rest).fst, (scanUrl rest).snd) := by
  induction pre with
  | nil => simp
  | cons p ps ih =>
    obtain ⟨t, hget, hfalse⟩ := hpre p (List.mem_cons_self _ _)
    have ihh := ih (fun x hx => hpre x (List.mem_cons_of_mem _ hx))
    simp only [List.cons_append, scanUrl, hget, hfalse, Bool.false_eq_true, if_false]
    simp [ihh]

/-- If the attempts before `r + N` all fail and attempt `r + N`
succeeds within the remaining budget, the retry loop returns
normally. -/
theorem openBrowserAux_ok (att : Nat → Bool) :
    ∀ (rem r N : Nat), (∀ i, r ≤ i → i < r + N → att i = false) → att (r + N) = true →
      N < rem → (openBrowserAux att r rem).fst = Except.ok () := by
  intro rem
  induction rem with
  | zero => intro r N _ _ hN; omega
  | succ rem ih =>
    intro r N hf hs hN
    by_cases h : att r = true
    · simp [openBrowserAux, h]
    · have hN0 : N ≠ 0 := by
        intro h0
        rw [h0, Nat.add_zero] at hs
        exact h hs
      simp only [openBrowserAux, h, Bool.false_eq_true, if_false]
      apply ih (r + 1) (N - 1)
      · intro i h1 h2
        exact hf i (by omega) (by omega)
      · have he : r + 1 + (N - 1) = r + N := by omega
        rw [he]
        exact hs
      · omega

/-- If every attempt fails, the retry loop performs exactly `rem`
attempts and raises `CustomException("Too many retries")`. -/
theorem openBrowserAux_fail (att : Nat → Bool) (hf : ∀ i, att i = false) :
    ∀ (rem r : Nat),
      (openBrowserAux att r rem).fst = Except.error { msg := "Too many retries" } ∧
      (openBrowserAux att r rem).snd.length = rem := by
  intro rem
  induction rem with
  | zero => intro r; exact ⟨rfl, rfl⟩
  | succ rem ih =>
    intro r
    simp only [openBrowserAux, hf r, Bool.false_eq_true, if_false]
    exact ⟨(ih (r + 1)).1, by simp [(ih (r + 1)).2]⟩

/-! ## Stage invariants: the PASS count of every stage, and the exact
success-path characterization of each stage -/

/-- The export stage adds a PASS marker to the trace exactly when it
completes successfully. -/
theorem stageExport_passCount (w : World) (tr : List Ev) :
    passCount (stageExport w tr).snd =
      passCount tr + (if (stageExport w tr).fst = Except.ok () then 1 else 0) := by
  unfold stageExport
  repeat' split
  all_goals simp_all [passCount]

/-- The restart stage emits no PASS marker of its own. -/
theorem stageRestart_passCount (w : World) (tr : List Ev) :
    passCount (stageRestart w tr).snd =
      passCount tr + (if (stageRestart w tr).fst = Except.ok () then 1 else 0) := by
  unfold stageRestart
  repeat' split
  all_goals simp_all [stageExport_passCount]

/-- The browser-scenario stage emits no PASS marker of its own. -/
theorem stageScenario_passCount (w : World) (tr : List Ev) :
    passCount (stageScenario w tr).snd =
      passCount tr + (if (stageScenario w tr).fst = Except.ok () then 1 else 0) := by
  unfold stageScenario
  repeat' split
  all_goals simp_all [stageRestart_passCount]

/-- The first-serve stage emits no PASS marker of its own. -/
theorem stageServe1_passCount (w : World) (tr : List Ev) :
    passCount (stageServe1 w tr).snd =
      passCount tr + (if (stageServe1 w tr).fst = Except.ok () then 1 else 0) := by
  unfold stageServe1
  repeat' split
  all_goals simp_all [stageScenario_passCount]

/-- The build-and-record stage emits no PASS marker of its own. -/
theorem stageBuildRecord_passCount (w : World) (tr : List Ev) :
    passCount (stageBuildRecord w tr).snd =
      passCount tr + (if (stageBuildRecord w tr).fst = Except.ok () then 1 else 0) := by
  unfold stageBuildRecord
  repeat' split
  all_goals simp_all [stageServe1_passCount]

/-- A run's trace contains the PASS marker exactly once if it completes
normally and not at all otherwise. -/
theorem runPipeline_passCount (w : World) :
    passCount (runPipeline w).snd =
      if (runPipeline w).fst = Except.ok () then 1 else 0 := by
  unfold runPipeline
  repeat' split
  all_goals simp_all [stageBuildRecord_passCount]

/-- A successful export stage passed the line-247 archive assertion and
appended exactly the PASS marker. -/
theorem stageExport_ok (w : World) (tr : List Ev) :
    (stageExport w tr).fst = Except.ok () →
      w.zipFiles.contains (w.tmpdir ++ "/pernosco-submit-test/out/message.h") = true ∧
      (stageExport w tr).snd = tr ++ [Ev.eprint "\nPASS"] := by
  rcases hr : stageExport w tr with ⟨res, t⟩
  intro h
  replace h : res = Except.ok () := h
  subst h
  unfold stageExport at hr
  repeat' split at hr
  all_goals first
    | exact Except.noConfusion (congrArg Prod.fst hr)
    | exact ⟨by assumption, (congrArg Prod.snd hr).symm⟩

/-- A successful restart stage observed the persisted-value wait come
true, rediscovered a URL and continued into the export stage with the
stop/start/echo/stop events appended. -/
theorem stageRestart_ok (w : World) (tr : List Ev) :
    (stageRestart w tr).fst = Except.ok () →
      waitUntilScript { script := textareaScript, expected := "HelloKitty" } w.persistPolls = true ∧
      ∃ url2, (scanUrl w.server2Stdout).snd = Except.ok url2 ∧
        stageRestart w tr =
          stageExport w
            (tr ++ [Ev.serverStop, Ev.serverStart] ++ (scanUrl w.server2Stdout).fst ++ [Ev.serverStop]) := by
  rcases hr : stageRestart w tr with ⟨res, t⟩
  intro h
  replace h : res = Except.ok () := h
  subst h
  unfold stageRestart at hr
  repeat' split at hr
  all_goals first
    | exact Except.noConfusion (congrArg Prod.fst hr)
    | exact ⟨by assumption, _, by assumption, hr.symm⟩

/-- A successful scenario stage just falls through to the restart
stage. -/
theorem stageScenario_ok (w : World) (tr : List Ev) :
    (stageScenario w tr).fst = Except.ok () →
      stageScenario w tr = stageRestart w tr := by
  rcases hr : stageScenario w tr with ⟨res, t⟩
  intro h
  replace h : res = Except.ok () := h
  subst h
  unfold stageScenario at hr
  repeat' split at hr
  all_goals first
    | exact Except.noConfusion (congrArg Prod.fst hr)
    | exact hr.symm

/-- A successful first-serve stage discovered a URL from the first
server's stdout and continued into the scenario stage with the
start/echo/banner events appended. -/
theorem stageServe1_ok (w : World) (tr : List Ev) :
    (stageServe1 w tr).fst = Except.ok () →
      ∃ url1, (scanUrl w.server1Stdout).snd = Except.ok url1 ∧
        stageServe1 w tr =
          stageScenario w
            (tr ++ [Ev.oprint "Starting server", Ev.serverStart] ++ (scanUrl w.server1Stdout).fst
                ++ [Ev.oprint ("Opening browser at  " ++ optStr url1 ++ "  to run tests"),
                    Ev.oprint "Browser open, running tests"]) := by
  rcases hr : stageServe1 w tr with ⟨res, t⟩
  intro h
  replace h : res = Except.ok () := h
  subst h
  unfold stageServe1 at hr
  repeat' split at hr
  all_goals first
    | exact Except.noConfusion (congrArg Prod.fst hr)
    | exact ⟨_, by assumption, hr.symm⟩

/-- A successful build-and-record stage just falls through to the
first-serve stage. -/
theorem stageBuildRecord_ok (w : World) (tr : List Ev) :
    (stageBuildRecord w tr).fst = Except.ok () →
      stageBuildRecord w tr = stageServe1 w tr := by
  rcases hr : stageBuildRecord w tr with ⟨res, t⟩
  intro h
  replace h : res = Except.ok () := h
  subst h
  unfold stageBuildRecord at hr
  repeat' split at hr
  all_goals first
    | exact Except.noConfusion (congrArg Prod.fst hr)
    | exact hr.symm

/-- A successful run passed the provisioning steps and continued into
the build-and-record stage with the two banner events. -/
theorem runPipeline_entry_ok (w : World) :
    (runPipeline w).fst = Except.ok () →
      runPipeline w =
        stageBuildRecord w
          [Ev.eprint ("Working directory: " ++ w.tmpdir), Ev.oprint "Mounting filesystem into test"] := by
  rcases hr : runPipeline w with ⟨res, t⟩
  intro h
  replace h : res = Except.ok () := h
  subst h
  unfold runPipeline at hr
  repeat' split at hr
  all_goals first
    | exact Except.noConfusion (congrArg Prod.fst hr)
    | exact hr.symm

/-- Master characterization of a successful run: both stdout scans
discovered a URL, the persisted-value wait came true, the archive
assertion held, and the trace is exactly `successTrace`. -/
theorem runPipeline_ok_spec (w : World) (h : (runPipeline w).fst = Except.ok ()) :
    ∃ url1 url2,
      (scanUrl w.server1Stdout).snd = Except.ok url1 ∧
      (scanUrl w.server2Stdout).snd = Except.ok url2 ∧
      waitUntilScript { script := textareaScript, expected := "HelloKitty" } w.persistPolls = true ∧
      w.zipFiles.contains (w.tmpdir ++ "/pernosco-submit-test/out/message.h") = true ∧
      (runPipeline w).snd = successTrace w url1 := by
  have e0 := runPipeline_entry_ok w h
  rw [e0] at h
  have e1 := stageBuildRecord_ok w _ h
  rw [e1] at h
  obtain ⟨url1, hscan1, e2⟩ := stageServe1_ok w _ h
  rw [e2] at h
  have e3 := stageScenario_ok w _ h
  rw [e3] at h
  obtain ⟨hpersist, url2, hscan2, e4⟩ := stageRestart_ok w _ h
  rw [e4] at h
  obtain ⟨hzip, e5⟩ := stageExport_ok w _ h
  refine ⟨url1, url2, hscan1, hscan2, hpersist, hzip, ?_⟩
  rw [e0, e1, e2, e3, e4, e5]
  simp [successTrace, successPrefix, List.append_assoc]

/-! ## The claims -/

/-- Claim C1: for every successful run, the notebook text-area value
observed by the post-restart `script_succeeds` poll (same storage
directory and trace, supplied unchanged to both server starts) is
byte-identical to the typed string: the poll that ended the final wait
observed exactly `"HelloKitty"`, and the run passes only if such a poll
occurred. -/
theorem notebook_value_survives_restart (w : World)
    (h : (runPipeline w).fst = Except.ok ()) :
    ∃ v, Except.ok v ∈ w.persistPolls ∧ v = "HelloKitty" := by
  obtain ⟨u1, u2, -, -, hp, -, -⟩ := runPipeline_ok_spec w h
  exact waitUntil_string_mem hp

/-- Witness for C1 at the concrete all-success oracle. -/
theorem notebook_value_survives_restart_witness :
    (runPipeline wAllOk).fst = Except.ok () ∧
    ∃ v, Except.ok v ∈ wAllOk.persistPolls ∧ v = "HelloKitty" :=
  ⟨rfl, notebook_value_survives_restart wAllOk rfl⟩

/-- Counterexample to claim C2 as stated: a run whose archive listing
contains only the work-root path `<tmpdir>/pernosco-submit-test/out/message.h`
and not the alias-rooted path `<tmpdir>/alias/pernosco-submit-test/out/message.h`
passes; the line-247 assertion does not require the alias-rooted
path. -/
theorem export_zip_alias_path_not_required :
    (runPipeline wExport).fst = Except.ok () ∧
    ("/tmp/t/alias/pernosco-submit-test/out/message.h" ∈ wExport.zipFiles → False) := by
  refine ⟨rfl, ?_⟩
  intro hmem
  simp [wExport, wAllOk] at hmem

/-- Claim C2 (amended): the path asserted against the archive listing
at line 247 is the work-root path `<tmpdir>/pernosco-submit-test/out/message.h`
(not the alias-rooted one); every successful run has that path in the
listing, and a run reaching the check without it fails the
assertion. -/
theorem export_zip_asserted_workroot_path (w : World)
    (h : (runPipeline w).fst = Except.ok ()) :
    (w.tmpdir ++ "/pernosco-submit-test/out/message.h") ∈ w.zipFiles := by
  obtain ⟨u1, u2, -, -, -, hzip, -⟩ := runPipeline_ok_spec w h
  exact List.elem_iff.mp hzip

/-- Witness for the amended C2 at the concrete export oracle. -/
theorem export_zip_asserted_workroot_path_witness :
    (wExport.tmpdir ++ "/pernosco-submit-test/out/message.h") ∈ wExport.zipFiles :=
  export_zip_asserted_workroot_path wExport rfl

/-- Counterexample to claim C3 as stated: a stdout stream that closes
after a single tokenizable non-URL line makes the scan of
`start_server` return normally (`Except.ok`) with `url = none` — it is
not treated as a fatal startup failure inside `start_server`. -/
theorem scan_closed_stream_returns_ok_none :
    (∀ l ∈ ["hello world"], ∃ t, (pySplit l).getLast? = some t ∧ pyStarts t "http:" = false) ∧
    scanUrl ["hello world"] = ([Ev.oprint "hello world"], Except.ok none) := by
  refine ⟨?_, rfl⟩
  decide

/-- Claim C3 (amended): when the stream closes without any line whose
last token starts with `"http:"` (and no whitespace-only line aborts
the scan first), `start_server` returns silently with `url` left as
`None`, after echoing every line; the failure surfaces only later. -/
theorem scan_closed_stream_silent_none (lines : List String)
    (hl : ∀ l ∈ lines, ∃ t, (pySplit l).getLast? = some t ∧ pyStarts t "http:" = false) :
    scanUrl lines = (lines.map Ev.oprint, Except.ok none) := by
  have hs := scanUrl_skip lines [] hl
  simpa [scanUrl] using hs

/-- Witness for the amended C3 at a concrete two-line stream. -/
theorem scan_closed_stream_silent_none_witness :
    scanUrl ["hello world", "no url here"] =
      (List.map Ev.oprint ["hello world", "no url here"], Except.ok none) :=
  scan_closed_stream_silent_none ["hello world", "no url here"] (by decide)

/-- Counterexample to claim C4 as stated: a line whose last token
starts with `http` (namely `https://x`) but not with `http:` is not
matched — the scan ends with `url = none` instead of that token. -/
theorem scan_https_token_not_matched :
    pyStarts "https://x" "http" = true ∧
    scanUrl ["serving https://x"] = ([Ev.oprint "serving https://x"], Except.ok none) :=
  ⟨rfl, rfl⟩

/-- Claim C4 (amended): for a stdout sequence whose earlier lines all
tokenize with a last token not starting with `"http:"` and which then
contains a line whose last token starts with `"http:"`, the scan echoes
each scanned line and sets the URL to exactly that last token of the
first such line. -/
theorem scan_url_discovery_http_colon (pre : List String) (l : String) (post : List String)
    (tok : String)
    (hpre : ∀ p ∈ pre, ∃ t, (pySplit p).getLast? = some t ∧ pyStarts t "http:" = false)
    (hl : (pySplit l).getLast? = some tok) (htok : pyStarts tok "http:" = true) :
    scanUrl (pre ++ l :: post) =
      (List.map Ev.oprint (pre ++ [l]), Except.ok (some tok)) := by
  rw [scanUrl_skip pre _ hpre]
  simp only [scanUrl, hl, htok, if_true]
  simp

/-- Witness for the amended C4 at a concrete stream. -/
theorem scan_url_discovery_http_colon_witness :
    scanUrl (["listening"] ++ "at http://h:1/x" :: ["later line"]) =
      (List.map Ev.oprint (["listening"] ++ ["at http://h:1/x"]), Except.ok (some "http://h:1/x")) :=
  scan_url_discovery_http_colon ["listening"] "at http://h:1/x" ["later line"] "http://h:1/x"
    (by decide) (by decide) (by decide)

/-- Claim C5: `open_browser` succeeds when the first `N < 100` attempts
raise the transient driver failure and attempt `N + 1` succeeds, and
when every attempt fails it raises `CustomException("Too many retries")`
after performing exactly the 100-attempt budget. -/
theorem open_browser_retry_budget :
    (∀ (att : Nat → Bool) (N : Nat), N < 100 →
        (∀ i, 1 ≤ i → i ≤ N → att i = false) → att (N + 1) = true →
        (open_browser att).fst = Except.ok ()) ∧
    (∀ att : Nat → Bool, (∀ i, att i = false) →
        (open_browser att).fst = Except.error { msg := "Too many retries" } ∧
        (open_browser att).snd.length = 100) := by
  constructor
  · intro att N hN hf hs
    apply openBrowserAux_ok att 100 1 N
    · intro i h1 h2
      exact hf i h1 (by omega)
    · rw [Nat.add_comm]
      exact hs
    · exact hN
  · intro att hf
    exact openBrowserAux_fail att hf 100 1

/-- Witness for C5: success after three transient failures, and
exactly 100 attempts before the bail-out when nothing ever connects. -/
theorem open_browser_retry_budget_witness :
    (open_browser (fun i => decide (i = 4))).fst = Except.ok () ∧
    (open_browser (fun _ => false)).snd.length = 100 :=
  ⟨open_browser_retry_budget.1 (fun i => decide (i = 4)) 3 (by omega)
      (fun i h1 h2 => by simp; omega) (by simp),
    (open_browser_retry_budget.2 (fun _ => false) (fun i => rfl)).2⟩

/-- Counterexample to claim C6 as stated: a run whose first UI wait
times out after the first server start aborts with the server started
but never interrupted — the interrupt-and-wait is not performed on
aborting runs (there is no try/finally in the script). -/
theorem abort_leaves_server_unstopped :
    (runPipeline wAbort).fst = Except.error PyErr.timeoutError ∧
    serverEvs (runPipeline wAbort).snd = [Ev.serverStart] :=
  ⟨rfl, rfl⟩

/-- Claim C6 (amended): on every successful run each of the two started
servers receives the interrupt-and-wait shutdown exactly once, in
start/stop/start/stop order; on runs that abort between a start and its
stop, that server is never stopped. -/
theorem success_stops_each_server_once (w : World)
    (h : (runPipeline w).fst = Except.ok ()) :
    serverEvs (runPipeline w).snd =
      [Ev.serverStart, Ev.serverStop, Ev.serverStart, Ev.serverStop] := by
  obtain ⟨u1, u2, -, -, -, -, htr⟩ := runPipeline_ok_spec w h
  rw [htr]
  simp [successTrace, successPrefix, serverEvs]

/-- Witness for the amended C6 at the concrete all-success oracle. -/
theorem success_stops_each_server_once_witness :
    serverEvs (runPipeline wAllOk).snd =
      [Ev.serverStart, Ev.serverStop, Ev.serverStart, Ev.serverStop] :=
  success_stops_each_server_once wAllOk rfl

/-- Claim C7: the diagnostic trace of a successful run holds the PASS
marker exactly once and as its very last event (after container
cleanup, export verification and unmount), and a run that aborts at
any point never emits PASS. -/
theorem pass_marker_iff_success (w : World) :
    ((runPipeline w).fst = Except.ok () →
      passCount (runPipeline w).snd = 1 ∧
      (runPipeline w).snd.getLast? = some (Ev.eprint "\nPASS")) ∧
    ((runPipeline w).fst ≠ Except.ok () → passCount (runPipeline w).snd = 0) := by
  constructor
  · intro h
    refine ⟨by rw [runPipeline_passCount]; simp [h], ?_⟩
    obtain ⟨u1, u2, -, -, -, -, htr⟩ := runPipeline_ok_spec w h
    rw [htr]
    exact List.getLast?_concat _
  · intro h
    rw [runPipeline_passCount]
    simp [h]

/-- Witness for C7: one PASS on the all-success oracle, none on an
aborting one. -/
theorem pass_marker_iff_success_witness :
    passCount (runPipeline wAllOk).snd = 1 ∧ passCount (runPipeline wAbort).snd = 0 :=
  ⟨((pass_marker_iff_success wAllOk).1 rfl).1,
    (pass_marker_iff_success wAbort).2 (by decide)⟩

/-- Claim C8: a `JavascriptException` during a `script_succeeds` poll
makes the predicate return `False` — the error is swallowed and treated
as "condition not yet true" instead of propagating. -/
theorem script_error_swallowed (sc : script_succeeds String) (e : JsError) :
    sc.call (Except.error e) = false := rfl

/-- Claim C9: a whitespace-only stdout line encountered before any URL
line makes `line.split()[-1]` raise `IndexError`, aborting the scan
(after echoing the line) rather than skipping the blank line. -/
theorem blank_line_raises_index_error (pre : List String) (b : String) (post : List String)
    (hpre : ∀ p ∈ pre, ∃ t, (pySplit p).getLast? = some t ∧ pyStarts t "http:" = false)
    (hb : pySplit b = []) :
    scanUrl (pre ++ b :: post) =
      (List.map Ev.oprint (pre ++ [b]), Except.error PyErr.indexError) := by
  rw [scanUrl_skip pre _ hpre]
  simp only [scanUrl, hb]
  simp

/-- Witness for C9: a blank line before a URL line aborts the scan. -/
theorem blank_line_raises_index_error_witness :
    scanUrl (["abc def"] ++ "   " :: ["x http://u"]) =
      (List.map Ev.oprint (["abc def"] ++ ["   "]), Except.error PyErr.indexError) :=
  blank_line_raises_index_error ["abc def"] "   " ["x http://u"] (by decide) (by decide)

/-- Claim C10: `record` is atomic on error — a non-zero `rr record`
exit raises before any state update, leaving `trace_dir` and
`next_trace_id` unchanged, and the counter is incremented by exactly
one iff the recording succeeds (with `trace_dir` set to the predicted
`<tmpdir>/main-<id>` directory). -/
theorem record_failure_atomic (tmpdir : String) (rrExit : Nat) (s : RecState) :
    (rrExit ≠ 0 → record tmpdir rrExit s = (Except.error PyErr.calledProcessError, s)) ∧
    (rrExit = 0 → record tmpdir rrExit s =
      (Except.ok (), { trace_dir := some (tmpdir ++ "/main-" ++ toString s.next_trace_id),
                       next_trace_id := s.next_trace_id + 1 })) ∧
    ((record tmpdir rrExit s).snd.next_trace_id = s.next_trace_id + 1 ↔ rrExit = 0) := by
  by_cases h : rrExit = 0
  · subst h
    refine ⟨fun hc => absurd rfl hc, fun _ => rfl, by simp [record]⟩
  · have hb : (rrExit != 0) = true := by simpa using h
    refine ⟨fun _ => by simp [record, hb], fun hc => absurd hc h, ?_⟩
    simp [record, hb]
    omega

/-- Witness for C10: a failing and a succeeding recording from the
initial module state. -/
theorem record_failure_atomic_witness :
    record "/w" 1 { trace_dir := none, next_trace_id := 0 } =
      (Except.error PyErr.calledProcessError, { trace_dir := none, next_trace_id := 0 }) ∧
    record "/w" 0 { trace_dir := none, next_trace_id := 0 } =
      (Except.ok (), { trace_dir := some ("/w" ++ "/main-" ++ toString (0 : Nat)),
                       next_trace_id := 0 + 1 }) :=
  ⟨(record_failure_atomic "/w" 1 _).1 (by decide),
    (record_failure_atomic "/w" 0 _).2.1 rfl⟩
